import Mathlib

/-!
Verification of `src/misc/tap.c` — a thin ioctl-based configuration shim for a
Linux TUN/TAP virtual network interface.

The C module is embedded shallowly:

* byte strings (interface names, hardware addresses, caller buffers) are
  `List Nat` of byte values; `strncpy` and `memcpy` are modelled on lists;
* `struct ifreq` becomes the record `Ifreq`.  In C the payload members share a
  union; since every request in this module populates exactly one member, the
  union is modelled with one record field per member, all zero in the
  `bzero`-ed record `Ifreq.zero`;
* each C function is parameterised over an abstract `ioctl` behaviour
  (`Ioctl`), so that theorems about errno pass-through and request contents
  hold for every possible OS reaction; a concrete OS-state model `osIoctl`
  (an interface table keyed by the 16-byte name field, plus the tap device's
  attachment and persistence state) instantiates it for the round-trip and
  read-modify-write properties;
* out-parameters (`int *mtu`, `unsigned int *ipaddr`, buffers) are modelled by
  passing the current contents in and returning the new contents next to the
  `int` result.
-/

namespace Tap

/-- IFNAMSIZ from net/if.h. -/
def IFNAMSIZ : Nat := 16

/-- ETH_ALEN from linux/if_ether.h. -/
def ETH_ALEN : Nat := 6

/-- AF_INET address family tag. -/
def AF_INET : Nat := 2

/-- IFF_UP interface flag bit. -/
def IFF_UP : Nat := 0x1

/-- IFF_RUNNING interface flag bit. -/
def IFF_RUNNING : Nat := 0x40

/-- IFF_TAP mode bit for TUNSETIFF. -/
def IFF_TAP : Nat := 0x0002

/-- IFF_NO_PI (no packet info) mode bit for TUNSETIFF. -/
def IFF_NO_PI : Nat := 0x1000

/-- The errno value ENODEV (no such device), used by the OS model. -/
def ENODEV : Nat := 19

/-- The errno value EBADF (bad file descriptor), used by the OS model. -/
def EBADF : Nat := 9

/-- The errno value EINVAL (invalid argument), used by the OS model. -/
def EINVAL : Nat := 22

/-- C `strncpy(dst, src, n)` on NUL-free byte strings: copy at most `n` bytes
of `src` into the first `n` bytes of `dst`, zero-filling up to `n` when `src`
is shorter; bytes of `dst` beyond `n` are untouched. -/
def strncpy (dst src : List Nat) (n : Nat) : List Nat :=
  (src.take n ++ List.replicate (n - src.length) 0) ++ dst.drop n

/-- C `memcpy(dst, src, n)` on byte lists (with `src` at least `n` bytes):
the first `n` bytes come from `src`, the rest of `dst` is untouched. -/
def memcpy (dst src : List Nat) (n : Nat) : List Nat :=
  src.take n ++ dst.drop n

/-- struct sockaddr_in, restricted to the members this module touches:
`sin_family` and `sin_addr.s_addr` (a 32-bit word kept in network byte
order, stored and returned verbatim). -/
structure SockaddrIn where
  sin_family : Nat
  sin_addr : Nat
deriving Repr, DecidableEq

/-- The all-zero sockaddr_in. -/
def SockaddrIn.zero : SockaddrIn := ⟨0, 0⟩

/-- struct sockaddr as used for `ifr_hwaddr`: a family tag and 14 data
bytes. -/
structure Sockaddr where
  sa_family : Nat
  sa_data : List Nat
deriving Repr, DecidableEq

/-- The all-zero sockaddr (14 zero data bytes). -/
def Sockaddr.zero : Sockaddr := ⟨0, List.replicate 14 0⟩

/-- struct ifreq.  `ifr_name` is the 16-byte name field; the remaining
members share a union in C and are modelled as separate fields (each request
populates exactly one of them). -/
structure Ifreq where
  ifr_name : List Nat
  ifr_flags : Nat
  ifr_mtu : Int
  ifr_addr : SockaddrIn
  ifr_netmask : SockaddrIn
  ifr_hwaddr : Sockaddr
deriving Repr, DecidableEq

/-- The ifreq produced by `bzero(&ifr, sizeof(ifr))`: every byte zero. -/
def Ifreq.zero : Ifreq :=
  ⟨List.replicate IFNAMSIZ 0, 0, 0, SockaddrIn.zero, SockaddrIn.zero, Sockaddr.zero⟩

/-- The 16-byte `ifr_name` field after `strncpy(ifr.ifr_name, name, IFNAMSIZ)`
on the zeroed record. -/
def ifrName (name : List Nat) : List Nat :=
  strncpy (List.replicate IFNAMSIZ 0) name IFNAMSIZ

/-- The ioctl request codes issued by tap.c. -/
inductive Cmd
  | gifmtu
  | sifaddr
  | gifaddr
  | sifnetmask
  | gifflags
  | sifflags
  | gifhwaddr
  | tunsetiff
  | tungetiff
  | tunsetpersist
deriving Repr, DecidableEq

/-- One network interface in the OS model: the configuration state behind
the ioctl table. -/
structure Iface where
  flags : Nat
  mtu : Int
  ipaddr : Nat
  netmask : Nat
  hwaddr : List Nat
deriving Repr, DecidableEq

/-- OS model state: the interface table (keyed by the 16-byte padded name),
which interface the tap device handle is attached to, and the persistence
flag of the tap device. -/
structure OS where
  ifaces : List (List Nat × Iface)
  tapAttach : Option (List Nat)
  persist : Bool
deriving Repr, DecidableEq

/-- Look an interface up by its 16-byte name key. -/
def OS.find (os : OS) (n : List Nat) : Option Iface :=
  os.ifaces.lookup n

/-- Store an interface under its 16-byte name key (new binding shadows any
older one). -/
def OS.update (os : OS) (n : List Nat) (f : Iface) : OS :=
  { os with ifaces := (n, f) :: os.ifaces }

/-- Abstract behaviour of `ioctl(fd, cmd, &ifr)`: given the request record it
either succeeds, handing back the (possibly OS-filled) record, or fails with
an errno value; either way the OS state threads through. -/
abbrev Ioctl : Type :=
  Nat → Cmd → Ifreq → OS → Except Nat Ifreq × OS

/-- Abstract behaviour of the integer-argument `ioctl(fd, cmd, n)` form used
by TUNSETPERSIST. -/
abbrev IoctlInt : Type :=
  Nat → Cmd → Nat → OS → Except Nat Unit × OS

/-- The byte string "tap0", the name the OS model assigns when an attach
request leaves the name field all-zero. -/
def tap0 : List Nat := [116, 97, 112, 48]

/-- OS model of the ifreq-carrying ioctls of the Linux interface-configuration
and TUN/TAP interfaces, restricted to the requests tap.c issues.  Get requests
fill the request record from the interface table; set requests copy the
record's payload into the table; a missing interface yields ENODEV; the
device-handle requests (SIOCGIFHWADDR on the tap fd, TUNGETIFF) act on the
attached interface and yield EBADF when nothing is attached; TUNSETIFF
requires the TAP mode bit, creates the interface when absent (inventing the
name "tap0" when the request's name field is all-zero) and records the
attachment. -/
def osIoctl : Ioctl := fun _fd cmd ifr os =>
  match cmd with
  | .gifmtu =>
      match os.find ifr.ifr_name with
      | none => (.error ENODEV, os)
      | some i => (.ok { ifr with ifr_mtu := i.mtu }, os)
  | .sifaddr =>
      if ifr.ifr_addr.sin_family ≠ AF_INET then (.error EINVAL, os)
      else
        match os.find ifr.ifr_name with
        | none => (.error ENODEV, os)
        | some i =>
            (.ok ifr, os.update ifr.ifr_name { i with ipaddr := ifr.ifr_addr.sin_addr })
  | .gifaddr =>
      match os.find ifr.ifr_name with
      | none => (.error ENODEV, os)
      | some i => (.ok { ifr with ifr_addr := ⟨AF_INET, i.ipaddr⟩ }, os)
  | .sifnetmask =>
      if ifr.ifr_netmask.sin_family ≠ AF_INET then (.error EINVAL, os)
      else
        match os.find ifr.ifr_name with
        | none => (.error ENODEV, os)
        | some i =>
            (.ok ifr, os.update ifr.ifr_name { i with netmask := ifr.ifr_netmask.sin_addr })
  | .gifflags =>
      match os.find ifr.ifr_name with
      | none => (.error ENODEV, os)
      | some i => (.ok { ifr with ifr_flags := i.flags }, os)
  | .sifflags =>
      match os.find ifr.ifr_name with
      | none => (.error ENODEV, os)
      | some i => (.ok ifr, os.update ifr.ifr_name { i with flags := ifr.ifr_flags })
  | .gifhwaddr =>
      match os.tapAttach with
      | none => (.error EBADF, os)
      | some n =>
          match os.find n with
          | none => (.error ENODEV, os)
          | some i =>
              (.ok { ifr with
                       ifr_hwaddr := ⟨1, i.hwaddr ++ List.replicate (14 - i.hwaddr.length) 0⟩ },
               os)
  | .tunsetiff =>
      if ifr.ifr_flags &&& IFF_TAP = 0 then (.error EINVAL, os)
      else
        let n := if ifr.ifr_name = List.replicate IFNAMSIZ 0 then ifrName tap0 else ifr.ifr_name
        let os1 :=
          match os.find n with
          | some _ => os
          | none => os.update n ⟨0, 1500, 0, 0, [0, 0, 0, 0, 0, 0]⟩
        (.ok { ifr with ifr_name := n }, { os1 with tapAttach := some n })
  | .tungetiff =>
      match os.tapAttach with
      | none => (.error EBADF, os)
      | some n => (.ok { ifr with ifr_name := n }, os)
  | .tunsetpersist => (.error EINVAL, os)

/-- OS model of the integer-argument ioctl TUNSETPERSIST: sets the tap
device's persistence flag; EBADF when the device is not attached. -/
def osIoctlInt : IoctlInt := fun _fd cmd v os =>
  match cmd with
  | .tunsetpersist =>
      match os.tapAttach with
      | none => (.error EBADF, os)
      | some _ => (.ok (), { os with persist := v ≠ 0 })
  | _ => (.error EINVAL, os)

/-! ## The tap.c functions -/

/-- setpersist_tap: `ioctl(fd, TUNSETPERSIST, 1)`; errno on error, 0 on
success. -/
def setpersist_tap (ioctl : IoctlInt) (fd : Nat) (os : OS) : Nat × OS :=
  match ioctl fd .tunsetpersist 1 os with
  | (.error e, os1) => (e, os1)
  | (.ok _, os1) => (0, os1)

/-- The request record getmtu_tap builds: bzero, then strncpy the name. -/
def getmtu_req (name : List Nat) : Ifreq :=
  { Ifreq.zero with ifr_name := ifrName name }

/-- getmtu_tap: SIOCGIFMTU; on success `*mtu = ifr.ifr_mtu`.  The out-param
`mtu` is passed in and the new contents returned. -/
def getmtu_tap (ioctl : Ioctl) (skfd : Nat) (name : List Nat) (mtu : Int) (os : OS) :
    (Nat × Int) × OS :=
  match ioctl skfd .gifmtu (getmtu_req name) os with
  | (.error e, os1) => ((e, mtu), os1)
  | (.ok ifr, os1) => ((0, ifr.ifr_mtu), os1)

/-- The request record setipaddr_tap builds: bzero, strncpy the name, then
`sin_family = AF_INET` and `sin_addr.s_addr = ipaddr` through the
sockaddr_in view of `ifr_addr`. -/
def setipaddr_req (name : List Nat) (ipaddr : Nat) : Ifreq :=
  { Ifreq.zero with ifr_name := ifrName name, ifr_addr := ⟨AF_INET, ipaddr⟩ }

/-- setipaddr_tap: SIOCSIFADDR with the address word stored verbatim. -/
def setipaddr_tap (ioctl : Ioctl) (skfd : Nat) (name : List Nat) (ipaddr : Nat) (os : OS) :
    Nat × OS :=
  match ioctl skfd .sifaddr (setipaddr_req name ipaddr) os with
  | (.error e, os1) => (e, os1)
  | (.ok _, os1) => (0, os1)

/-- The request record getipaddr_tap builds: bzero, then strncpy the name. -/
def getipaddr_req (name : List Nat) : Ifreq :=
  { Ifreq.zero with ifr_name := ifrName name }

/-- getipaddr_tap: SIOCGIFADDR; on success `*ipaddr = saddr->sin_addr.s_addr`. -/
def getipaddr_tap (ioctl : Ioctl) (skfd : Nat) (name : List Nat) (ipaddr : Nat) (os : OS) :
    (Nat × Nat) × OS :=
  match ioctl skfd .gifaddr (getipaddr_req name) os with
  | (.error e, os1) => ((e, ipaddr), os1)
  | (.ok ifr, os1) => ((0, ifr.ifr_addr.sin_addr), os1)

/-- The request record setnetmask_tap builds: bzero, strncpy the name, then
`sin_family = AF_INET` and `sin_addr.s_addr = netmask` through the
sockaddr_in view of `ifr_netmask`. -/
def setnetmask_req (name : List Nat) (netmask : Nat) : Ifreq :=
  { Ifreq.zero with ifr_name := ifrName name, ifr_netmask := ⟨AF_INET, netmask⟩ }

/-- setnetmask_tap: SIOCSIFNETMASK with the mask word stored verbatim. -/
def setnetmask_tap (ioctl : Ioctl) (skfd : Nat) (name : List Nat) (netmask : Nat) (os : OS) :
    Nat × OS :=
  match ioctl skfd .sifnetmask (setnetmask_req name netmask) os with
  | (.error e, os1) => (e, os1)
  | (.ok _, os1) => (0, os1)

/-- The request record setflags_tap builds for its SIOCGIFFLAGS step. -/
def setflags_req (name : List Nat) : Ifreq :=
  { Ifreq.zero with ifr_name := ifrName name }

/-- setflags_tap: SIOCGIFFLAGS, then `ifr_flags |= flags` (set ≠ 0) or
`ifr_flags &= ~flags & 0xffff` (set = 0), then SIOCSIFFLAGS.  The C
parameter `flags` is an unsigned short, modelled by reducing mod 2^16 at
entry; `~flags & 0xffff` is the 16-bit complement, i.e. `0xffff ^^^ flags`. -/
def setflags_tap (ioctl : Ioctl) (skfd : Nat) (name : List Nat) (flags : Nat) (set : Bool)
    (os : OS) : Nat × OS :=
  let flags := flags % 65536
  match ioctl skfd .gifflags (setflags_req name) os with
  | (.error e, os1) => (e, os1)
  | (.ok ifr, os1) =>
      let ifr2 :=
        if set then { ifr with ifr_flags := ifr.ifr_flags ||| flags }
        else { ifr with ifr_flags := ifr.ifr_flags &&& (0xffff ^^^ flags) }
      match ioctl skfd .sifflags ifr2 os1 with
      | (.error e, os2) => (e, os2)
      | (.ok _, os2) => (0, os2)

/-- setup_tap: `setflags_tap(skfd, name, IFF_UP | IFF_RUNNING, 1)`. -/
def setup_tap (ioctl : Ioctl) (skfd : Nat) (name : List Nat) (os : OS) : Nat × OS :=
  setflags_tap ioctl skfd name (IFF_UP ||| IFF_RUNNING) true os

/-- gethwaddr_tap: SIOCGIFHWADDR on the tap fd with a zeroed request (no name
is filled in); on success `memcpy(ha, ifr.ifr_hwaddr.sa_data, ETH_ALEN)`.
The caller's buffer `ha` is passed in and its new contents returned. -/
def gethwaddr_tap (ioctl : Ioctl) (tapfd : Nat) (ha : List Nat) (os : OS) :
    (Nat × List Nat) × OS :=
  match ioctl tapfd .gifhwaddr Ifreq.zero os with
  | (.error e, os1) => ((e, ha), os1)
  | (.ok ifr, os1) => ((0, memcpy ha ifr.ifr_hwaddr.sa_data ETH_ALEN), os1)

/-- getname_tap: TUNGETIFF on the tap fd with a zeroed request; on success
`strncpy(name, ifr.ifr_name, IFNAMSIZ)` into the caller's buffer. -/
def getname_tap (ioctl : Ioctl) (tapfd : Nat) (name : List Nat) (os : OS) :
    (Nat × List Nat) × OS :=
  match ioctl tapfd .tungetiff Ifreq.zero os with
  | (.error e, os1) => ((e, name), os1)
  | (.ok ifr, os1) => ((0, strncpy name ifr.ifr_name IFNAMSIZ), os1)

/-- set_tap: NULL guard returning -1, else `*skfd = socket(PF_INET,
SOCK_DGRAM, IPPROTO_IP)`; on socket failure the fd out-param holds the
written -1 and errno is returned.  `skfdNull` says whether the caller passed
a NULL pointer; `socketRes` is the OS's answer to the socket call; the second
component is what was written through the pointer (none when NULL). -/
def set_tap (skfdNull : Bool) (socketRes : Except Nat Nat) : Int × Option Int :=
  if skfdNull then (-1, none)
  else
    match socketRes with
    | .error e => ((e : Int), some (-1))
    | .ok fd => (0, some (fd : Int))

/-- The request record set_tap_if builds: bzero, `ifr_flags = IFF_TAP |
IFF_NO_PI`, strncpy the requested name. -/
def set_tap_if_req (name : List Nat) : Ifreq :=
  { Ifreq.zero with ifr_flags := IFF_TAP ||| IFF_NO_PI, ifr_name := ifrName name }

/-- set_tap_if: TUNSETIFF with the attach request; errno on error, 0 on
success. -/
def set_tap_if (ioctl : Ioctl) (fd : Nat) (name : List Nat) (os : OS) : Nat × OS :=
  match ioctl fd .tunsetiff (set_tap_if_req name) os with
  | (.error e, os1) => (e, os1)
  | (.ok _, os1) => (0, os1)

/-! ## Helper definitions for the theorems -/

/-- An ioctl behaviour that always fails with errno `e` and leaves the OS
state unchanged; used to witness the error-path theorems. -/
def failIoctl (e : Nat) : Ioctl := fun _ _ _ os => (.error e, os)

/-- The integer-argument counterpart of `failIoctl`. -/
def failIoctlInt (e : Nat) : IoctlInt := fun _ _ _ os => (.error e, os)

/-- An ioctl behaviour that fails with errno `e` on command `c` and follows
`base` on every other command; used to witness the path where a later ioctl
of an operation fails after an earlier one succeeded. -/
def failOn (c : Cmd) (e : Nat) (base : Ioctl) : Ioctl := fun fd cmd ifr os =>
  if cmd = c then (.error e, os) else base fd cmd ifr os

/-- A demonstration interface: flags 0x1002, MTU 1500, hardware address
01:02:03:04:05:06. -/
def demoIface : Iface := ⟨4098, 1500, 0, 0, [1, 2, 3, 4, 5, 6]⟩

/-- A demonstration OS state holding `demoIface` under the name "tap0" with
the tap device attached to it. -/
def demoState : OS := ⟨[(ifrName tap0, demoIface)], some (ifrName tap0), false⟩

/-! ## Helper lemmas -/

theorem ifrName_eq (name : List Nat) :
    ifrName name = name.take IFNAMSIZ ++ List.replicate (IFNAMSIZ - name.length) 0 := by
  simp [ifrName, strncpy, IFNAMSIZ]

theorem ifrName_length (name : List Nat) : (ifrName name).length = IFNAMSIZ := by
  simp [ifrName_eq, IFNAMSIZ]
  omega

/-! ## Claims -/

/-- C4: every operation that copies a name into a configuration request
(set_tap_if, getmtu_tap, setipaddr_tap, getipaddr_tap, setnetmask_tap,
setflags_tap) puts `strncpy(·, name, IFNAMSIZ)` of it into the 16-byte name
field: a name at or under IFNAMSIZ bytes is copied exactly (zero-padded to
the field width), a longer one is silently truncated to its first IFNAMSIZ
bytes — never rejected. -/
theorem claim4_name_truncation (name : List Nat) (a w : Nat) :
    (set_tap_if_req name).ifr_name = ifrName name ∧
    (getmtu_req name).ifr_name = ifrName name ∧
    (setipaddr_req name a).ifr_name = ifrName name ∧
    (getipaddr_req name).ifr_name = ifrName name ∧
    (setnetmask_req name w).ifr_name = ifrName name ∧
    (setflags_req name).ifr_name = ifrName name ∧
    ifrName name =
      (if name.length ≤ IFNAMSIZ then name ++ List.replicate (IFNAMSIZ - name.length) 0
       else name.take IFNAMSIZ) ∧
    (ifrName name).length = IFNAMSIZ := by
  refine ⟨rfl, rfl, rfl, rfl, rfl, rfl, ?_, ifrName_length name⟩
  rw [ifrName_eq]
  by_cases h : name.length ≤ IFNAMSIZ
  · rw [if_pos h, List.take_of_length_le h]
  · have h16 : IFNAMSIZ - name.length = 0 := by omega
    rw [if_neg h, h16, List.replicate_zero, List.append_nil]

/-- C6: setipaddr_tap and setnetmask_tap build requests that carry the
32-bit network-order word verbatim (every byte of the stored word equals the
corresponding byte of the argument) together with the AF_INET family tag,
and populate no other configuration field — flags, MTU, the other address
slot and the hardware-address slot all stay zero. -/
theorem claim6_addr_verbatim (name : List Nat) (W : Nat) :
    (setipaddr_req name W).ifr_addr.sin_addr = W ∧
    (setipaddr_req name W).ifr_addr.sin_family = AF_INET ∧
    (∀ k, ((setipaddr_req name W).ifr_addr.sin_addr >>> (8 * k)) % 256 = (W >>> (8 * k)) % 256) ∧
    (setipaddr_req name W).ifr_flags = 0 ∧
    (setipaddr_req name W).ifr_mtu = 0 ∧
    (setipaddr_req name W).ifr_netmask = SockaddrIn.zero ∧
    (setipaddr_req name W).ifr_hwaddr = Sockaddr.zero ∧
    (setnetmask_req name W).ifr_netmask.sin_addr = W ∧
    (setnetmask_req name W).ifr_netmask.sin_family = AF_INET ∧
    (∀ k, ((setnetmask_req name W).ifr_netmask.sin_addr >>> (8 * k)) % 256 = (W >>> (8 * k)) % 256) ∧
    (setnetmask_req name W).ifr_flags = 0 ∧
    (setnetmask_req name W).ifr_mtu = 0 ∧
    (setnetmask_req name W).ifr_addr = SockaddrIn.zero ∧
    (setnetmask_req name W).ifr_hwaddr = Sockaddr.zero :=
  ⟨rfl, rfl, fun _ => rfl, rfl, rfl, rfl, rfl, rfl, rfl, fun _ => rfl, rfl, rfl, rfl, rfl⟩

/-- C10: every operation zero-initializes its request record (bzero) before
populating it, so the request handed to the OS is exactly the record whose
populated fields are the stated function of the arguments and whose every
other field is zero — the full contents are a deterministic function of the
arguments, with nothing residual.  Covered are the six name-keyed request
builders (setipaddr_tap, setflags_tap, set_tap_if, getmtu_tap,
getipaddr_tap, setnetmask_tap) and the two device-handle operations
(gethwaddr_tap, getname_tap), whose request handed to the OS is the
all-zero record `Ifreq.zero`, itself spelled out byte-for-byte. -/
theorem claim10_requests_deterministic (ioctl : Ioctl) (name : List Nat) (a w : Nat)
    (tapfd : Nat) (ha nb : List Nat) (os : OS) :
    setipaddr_req name a =
      ⟨ifrName name, 0, 0, ⟨AF_INET, a⟩, SockaddrIn.zero, Sockaddr.zero⟩ ∧
    setflags_req name =
      ⟨ifrName name, 0, 0, SockaddrIn.zero, SockaddrIn.zero, Sockaddr.zero⟩ ∧
    set_tap_if_req name =
      ⟨ifrName name, IFF_TAP ||| IFF_NO_PI, 0, SockaddrIn.zero, SockaddrIn.zero, Sockaddr.zero⟩ ∧
    getmtu_req name =
      ⟨ifrName name, 0, 0, SockaddrIn.zero, SockaddrIn.zero, Sockaddr.zero⟩ ∧
    getipaddr_req name =
      ⟨ifrName name, 0, 0, SockaddrIn.zero, SockaddrIn.zero, Sockaddr.zero⟩ ∧
    setnetmask_req name w =
      ⟨ifrName name, 0, 0, SockaddrIn.zero, ⟨AF_INET, w⟩, Sockaddr.zero⟩ ∧
    Ifreq.zero =
      ⟨List.replicate IFNAMSIZ 0, 0, 0, ⟨0, 0⟩, ⟨0, 0⟩, ⟨0, List.replicate 14 0⟩⟩ ∧
    gethwaddr_tap ioctl tapfd ha os =
      (match ioctl tapfd Cmd.gifhwaddr Ifreq.zero os with
       | (Except.error e, os1) => ((e, ha), os1)
       | (Except.ok ifr, os1) => ((0, memcpy ha ifr.ifr_hwaddr.sa_data ETH_ALEN), os1)) ∧
    getname_tap ioctl tapfd nb os =
      (match ioctl tapfd Cmd.tungetiff Ifreq.zero os with
       | (Except.error e, os1) => ((e, nb), os1)
       | (Except.ok ifr, os1) => ((0, strncpy nb ifr.ifr_name IFNAMSIZ), os1)) :=
  ⟨rfl, rfl, rfl, rfl, rfl, rfl, rfl, rfl, rfl⟩

/-- C8: set_tap with a NULL out-pointer returns -1 without consulting the OS
(the result is the same whatever the socket call would have answered, and
nothing is written through the pointer); -1 is negative, hence not an errno
value, i.e. a module-invented sentinel. -/
theorem claim8_null_guard :
    ∀ r : Except Nat Nat, set_tap true r = (-1, none) ∧ (set_tap true r).1 < 0 :=
  fun _ => ⟨rfl, by show (-1 : Int) < 0; decide⟩

/-- C3 counterexample: not every failure return of the module is an
OS-reported errno: set_tap called with a NULL pointer returns -1 whether the
OS would have succeeded or failed (here with errno 7), and -1 is negative
while errno values are non-negative — a module-invented code. -/
theorem claim3_counterexample :
    (set_tap true (Except.ok 3)).1 = -1 ∧
    (set_tap true (Except.error 7)).1 = -1 ∧
    (set_tap true (Except.error 7)).1 < 0 ∧
    ¬ (set_tap true (Except.error 7)).1 = 7 := by
  decide

/-- C5: set_tap_if issues an attach request whose mode bits are exactly
`IFF_TAP ||| IFF_NO_PI`, whose name field is the (strncpy-copied) requested
name — an empty request leaves the field all-zero, letting the OS pick a
name — and it returns the OS's error code unchanged when the TUNSETIFF bind
fails. -/
theorem claim5_attach_request (ioctl : Ioctl) (fd : Nat) (name : List Nat) (os : OS)
    (e : Nat) (os1 : OS)
    (h : ioctl fd Cmd.tunsetiff (set_tap_if_req name) os = (Except.error e, os1)) :
    (set_tap_if_req name).ifr_flags = IFF_TAP ||| IFF_NO_PI ∧
    (set_tap_if_req name).ifr_name = ifrName name ∧
    ifrName [] = List.replicate IFNAMSIZ 0 ∧
    set_tap_if ioctl fd name os = (e, os1) := by
  refine ⟨rfl, rfl, by decide, ?_⟩
  simp only [set_tap_if, h]

/-- Witness for C5 at the always-failing ioctl behaviour `failIoctl 13`. -/
theorem claim5_witness :
    (set_tap_if_req tap0).ifr_flags = IFF_TAP ||| IFF_NO_PI ∧
    (set_tap_if_req tap0).ifr_name = ifrName tap0 ∧
    ifrName [] = List.replicate IFNAMSIZ 0 ∧
    set_tap_if (failIoctl 13) 3 tap0 ⟨[], none, false⟩ = (13, ⟨[], none, false⟩) :=
  claim5_attach_request (failIoctl 13) 3 tap0 ⟨[], none, false⟩ 13 ⟨[], none, false⟩ rfl

/-- C9: when the underlying ioctl fails, each get-operation (getmtu_tap,
getipaddr_tap, gethwaddr_tap, getname_tap) returns the errno and leaves the
caller-supplied out-parameter or buffer exactly as it was — no partial write
on the error path. -/
theorem claim9_error_leaves_output (ioctl : Ioctl) (skfd tapfd : Nat) (name : List Nat)
    (mtu0 : Int) (ip0 : Nat) (ha0 nb0 : List Nat) (os : OS)
    (e1 e2 e3 e4 : Nat) (os1 os2 os3 os4 : OS)
    (h1 : ioctl skfd Cmd.gifmtu (getmtu_req name) os = (Except.error e1, os1))
    (h2 : ioctl skfd Cmd.gifaddr (getipaddr_req name) os = (Except.error e2, os2))
    (h3 : ioctl tapfd Cmd.gifhwaddr Ifreq.zero os = (Except.error e3, os3))
    (h4 : ioctl tapfd Cmd.tungetiff Ifreq.zero os = (Except.error e4, os4)) :
    getmtu_tap ioctl skfd name mtu0 os = ((e1, mtu0), os1) ∧
    getipaddr_tap ioctl skfd name ip0 os = ((e2, ip0), os2) ∧
    gethwaddr_tap ioctl tapfd ha0 os = ((e3, ha0), os3) ∧
    getname_tap ioctl tapfd nb0 os = ((e4, nb0), os4) := by
  refine ⟨?_, ?_, ?_, ?_⟩
  · simp only [getmtu_tap, h1]
  · simp only [getipaddr_tap, h2]
  · simp only [gethwaddr_tap, h3]
  · simp only [getname_tap, h4]

/-- Witness for C9 at the always-failing ioctl behaviour `failIoctl 7`. -/
theorem claim9_witness :
    getmtu_tap (failIoctl 7) 3 tap0 1500 ⟨[], none, false⟩ = ((7, 1500), ⟨[], none, false⟩) ∧
    getipaddr_tap (failIoctl 7) 3 tap0 9 ⟨[], none, false⟩ = ((7, 9), ⟨[], none, false⟩) ∧
    gethwaddr_tap (failIoctl 7) 4 [1, 2, 3, 4, 5, 6, 9] ⟨[], none, false⟩ =
      ((7, [1, 2, 3, 4, 5, 6, 9]), ⟨[], none, false⟩) ∧
    getname_tap (failIoctl 7) 4 (List.replicate 16 0) ⟨[], none, false⟩ =
      ((7, List.replicate 16 0), ⟨[], none, false⟩) :=
  claim9_error_leaves_output (failIoctl 7) 3 4 tap0 1500 9 [1, 2, 3, 4, 5, 6, 9]
    (List.replicate 16 0) ⟨[], none, false⟩ 7 7 7 7
    ⟨[], none, false⟩ ⟨[], none, false⟩ ⟨[], none, false⟩ ⟨[], none, false⟩
    rfl rfl rfl rfl

/-- C7: on success gethwaddr_tap writes exactly ETH_ALEN = 6 bytes — the
attached device's hardware address as held by the OS — into the caller's
buffer, and every byte of the buffer beyond the first 6 keeps its previous
value. -/
theorem claim7_hwaddr_six_bytes (tapfd : Nat) (ha : List Nat) (os : OS) (n : List Nat)
    (i : Iface) (hat : os.tapAttach = some n) (hfind : os.find n = some i)
    (hlen : i.hwaddr.length = ETH_ALEN) :
    gethwaddr_tap osIoctl tapfd ha os = ((0, i.hwaddr ++ ha.drop ETH_ALEN), os) ∧
    ((gethwaddr_tap osIoctl tapfd ha os).1.2).take ETH_ALEN = i.hwaddr ∧
    ((gethwaddr_tap osIoctl tapfd ha os).1.2).drop ETH_ALEN = ha.drop ETH_ALEN := by
  have hbuf : memcpy ha (i.hwaddr ++ List.replicate (14 - i.hwaddr.length) 0) ETH_ALEN =
      i.hwaddr ++ ha.drop ETH_ALEN := by
    rw [memcpy, ← hlen, List.take_left]
  have hrun : gethwaddr_tap osIoctl tapfd ha os = ((0, i.hwaddr ++ ha.drop ETH_ALEN), os) := by
    simp only [gethwaddr_tap, osIoctl, hat, hfind, hbuf]
  refine ⟨hrun, ?_, ?_⟩
  · rw [hrun, ← hlen, List.take_left]
  · rw [hrun, ← hlen, List.drop_left]

/-- Witness for C7 on a one-interface OS state whose tap device is attached. -/
theorem claim7_witness :
    gethwaddr_tap osIoctl 4 [9, 9, 9, 9, 9, 9, 9, 9]
        ⟨[(ifrName tap0, ⟨0, 1500, 0, 0, [1, 2, 3, 4, 5, 6]⟩)], some (ifrName tap0), false⟩ =
      ((0, [1, 2, 3, 4, 5, 6, 9, 9]),
        ⟨[(ifrName tap0, ⟨0, 1500, 0, 0, [1, 2, 3, 4, 5, 6]⟩)], some (ifrName tap0), false⟩) :=
  (claim7_hwaddr_six_bytes 4 [9, 9, 9, 9, 9, 9, 9, 9]
    ⟨[(ifrName tap0, ⟨0, 1500, 0, 0, [1, 2, 3, 4, 5, 6]⟩)], some (ifrName tap0), false⟩
    (ifrName tap0) ⟨0, 1500, 0, 0, [1, 2, 3, 4, 5, 6]⟩ rfl (by decide) rfl).1

set_option maxRecDepth 4096 in
/-- C1: on an interface whose current flags word is F, setflags_tap with bit
set B and set=1 writes back exactly `F ||| B`, and with set=0 exactly
`F &&& ~B` (the 16-bit complement `0xffff ^^^ B`, which bit-for-bit is
"F and not B"), leaving every bit outside B unchanged; setup_tap, which is
setflags_tap with `IFF_UP ||| IFF_RUNNING` and set=1, therefore leaves the
interface with both bits set and all other pre-existing bits unchanged. -/
theorem claim1_setflags_mask (skfd : Nat) (name : List Nat) (B : Nat) (os : OS) (i : Iface)
    (hB : B < 65536) (hF : i.flags < 65536)
    (hfind : os.find (ifrName name) = some i) :
    setflags_tap osIoctl skfd name B true os =
      (0, os.update (ifrName name) { i with flags := i.flags ||| B }) ∧
    setflags_tap osIoctl skfd name B false os =
      (0, os.update (ifrName name) { i with flags := i.flags &&& (0xffff ^^^ B) }) ∧
    (∀ k, (i.flags ||| B).testBit k = (i.flags.testBit k || B.testBit k)) ∧
    (∀ k, (i.flags &&& (0xffff ^^^ B)).testBit k = (i.flags.testBit k && !(B.testBit k))) ∧
    setup_tap osIoctl skfd name os =
      (0, os.update (ifrName name) { i with flags := i.flags ||| (IFF_UP ||| IFF_RUNNING) }) ∧
    ((os.update (ifrName name) { i with flags := i.flags ||| (IFF_UP ||| IFF_RUNNING) }).find
        (ifrName name) = some { i with flags := i.flags ||| (IFF_UP ||| IFF_RUNNING) }) ∧
    (i.flags ||| (IFF_UP ||| IFF_RUNNING)) &&& (IFF_UP ||| IFF_RUNNING) =
      IFF_UP ||| IFF_RUNNING ∧
    (∀ k, (IFF_UP ||| IFF_RUNNING).testBit k = false →
      (i.flags ||| (IFF_UP ||| IFF_RUNNING)).testBit k = i.flags.testBit k) := by
  have hBmod : B % 65536 = B := Nat.mod_eq_of_lt hB
  have hUR : (IFF_UP ||| IFF_RUNNING) % 65536 = IFF_UP ||| IFF_RUNNING := by decide
  have hmask : (2 : Nat) ^ 16 = 65536 := by norm_num
  refine ⟨?_, ?_, fun k => Nat.testBit_or .., ?_, ?_, ?_, ?_, ?_⟩
  · simp only [setflags_tap, hBmod, osIoctl, setflags_req, Ifreq.zero, hfind, reduceIte, if_true]
  · simp only [setflags_tap, hBmod, osIoctl, setflags_req, Ifreq.zero, hfind,
      Bool.false_eq_true, if_false]
  · intro k
    by_cases hk : k < 16
    · have h15 : (65535 : Nat).testBit k = true := by
        have h : (65535 : Nat) = 2 ^ 16 - 1 := by norm_num
        rw [h, Nat.testBit_two_pow_sub_one]
        simpa using hk
      simp [Nat.testBit_and, Nat.testBit_xor, h15]
    · have hFk : i.flags.testBit k = false :=
        Nat.testBit_lt_two_pow (lt_of_lt_of_le (hmask ▸ hF)
          (Nat.pow_le_pow_right (by norm_num) (Nat.le_of_not_lt hk)))
      simp [Nat.testBit_and, hFk]
  · simp only [setup_tap, setflags_tap, hUR, osIoctl, setflags_req, Ifreq.zero, hfind,
      reduceIte, if_true]
  · simp [OS.find, OS.update, List.lookup]
  · apply Nat.eq_of_testBit_eq
    intro k
    simp only [Nat.testBit_and, Nat.testBit_or]
    cases Nat.testBit i.flags k <;> cases Nat.testBit IFF_UP k <;>
      cases Nat.testBit IFF_RUNNING k <;> rfl
  · intro k hk
    rw [Nat.testBit_or, hk, Bool.or_false]

/-- Witness for C1 on a one-interface OS state with pre-existing flags
0x1002 (neither IFF_UP nor IFF_RUNNING set). -/
theorem claim1_witness :
    setflags_tap osIoctl 3 tap0 65 true
        ⟨[(ifrName tap0, ⟨0x1002, 1500, 0, 0, [1, 2, 3, 4, 5, 6]⟩)], none, false⟩ =
      (0, OS.update ⟨[(ifrName tap0, ⟨0x1002, 1500, 0, 0, [1, 2, 3, 4, 5, 6]⟩)], none, false⟩
            (ifrName tap0) ⟨0x1002 ||| 65, 1500, 0, 0, [1, 2, 3, 4, 5, 6]⟩) :=
  (claim1_setflags_mask 3 tap0 65
    ⟨[(ifrName tap0, ⟨0x1002, 1500, 0, 0, [1, 2, 3, 4, 5, 6]⟩)], none, false⟩
    ⟨0x1002, 1500, 0, 0, [1, 2, 3, 4, 5, 6]⟩
    (by decide) (by decide) (by decide)).1

/-- C2: over the OS-state model, SetIPv4Address followed by GetIPv4Address on
the same name round-trips — the get returns exactly the address word that was
set, with both calls reporting success — and GetMTU returns the MTU the OS
state currently holds for the interface (i.e. whatever was most recently
set). -/
theorem claim2_roundtrip (skfd skfd2 skfd3 : Nat) (name : List Nat) (A : Nat) (m0 : Int)
    (p0 : Nat) (os : OS) (i : Iface) (hfind : os.find (ifrName name) = some i) :
    (setipaddr_tap osIoctl skfd name A os).1 = 0 ∧
    getipaddr_tap osIoctl skfd2 name p0 (setipaddr_tap osIoctl skfd name A os).2 =
      ((0, A), (setipaddr_tap osIoctl skfd name A os).2) ∧
    getmtu_tap osIoctl skfd3 name m0 os = ((0, i.mtu), os) := by
  have hset : setipaddr_tap osIoctl skfd name A os =
      (0, os.update (ifrName name) { i with ipaddr := A }) := by
    simp [setipaddr_tap, osIoctl, setipaddr_req, Ifreq.zero, AF_INET, hfind]
  have hget : getipaddr_tap osIoctl skfd2 name p0 (os.update (ifrName name) { i with ipaddr := A }) =
      ((0, A), os.update (ifrName name) { i with ipaddr := A }) := by
    simp [getipaddr_tap, osIoctl, getipaddr_req, Ifreq.zero, OS.find, OS.update, List.lookup]
  have hmtu : getmtu_tap osIoctl skfd3 name m0 os = ((0, i.mtu), os) := by
    simp [getmtu_tap, osIoctl, getmtu_req, Ifreq.zero, hfind]
  rw [hset]
  exact ⟨rfl, hget, hmtu⟩

/-- Witness for C2 on a one-interface OS state: setting 10.0.0.1
(0x0100000A in network order) and reading it back yields 0x0100000A. -/
theorem claim2_witness :
    (setipaddr_tap osIoctl 3 tap0 0x0100000A
        ⟨[(ifrName tap0, ⟨0, 1500, 0, 0, [1, 2, 3, 4, 5, 6]⟩)], none, false⟩).1 = 0 ∧
    getipaddr_tap osIoctl 3 tap0 0
        (setipaddr_tap osIoctl 3 tap0 0x0100000A
          ⟨[(ifrName tap0, ⟨0, 1500, 0, 0, [1, 2, 3, 4, 5, 6]⟩)], none, false⟩).2 =
      ((0, 0x0100000A),
        (setipaddr_tap osIoctl 3 tap0 0x0100000A
          ⟨[(ifrName tap0, ⟨0, 1500, 0, 0, [1, 2, 3, 4, 5, 6]⟩)], none, false⟩).2) ∧
    getmtu_tap osIoctl 3 tap0 0
        ⟨[(ifrName tap0, ⟨0, 1500, 0, 0, [1, 2, 3, 4, 5, 6]⟩)], none, false⟩ =
      ((0, 1500), ⟨[(ifrName tap0, ⟨0, 1500, 0, 0, [1, 2, 3, 4, 5, 6]⟩)], none, false⟩) :=
  claim2_roundtrip 3 3 3 tap0 0x0100000A 0 0
    ⟨[(ifrName tap0, ⟨0, 1500, 0, 0, [1, 2, 3, 4, 5, 6]⟩)], none, false⟩
    ⟨0, 1500, 0, 0, [1, 2, 3, 4, 5, 6]⟩ (by decide)

set_option maxRecDepth 4096 in
/-- C3 amended: every operation returns exactly 0 when its underlying OS
calls succeed, and when an underlying call fails it returns exactly that
call's errno, unmodified (and the OS state that call handed back) — no
translation, retry or classification; the single exception is set_tap's
NULL-pointer guard, which returns the module-invented sentinel -1 (the
counterexample); set_tap with a non-NULL pointer follows the convention: 0
and the new fd on socket success, the socket call's errno on failure.  The
hypotheses describe one succeeding behaviour (`ioctlS`/`ioctlIntS`), one
failing behaviour (`ioctlF`/`ioctlIntF`), and one behaviour whose
SIOCSIFFLAGS fails after SIOCGIFFLAGS succeeded (`ioctlM`), so every error
path of every operation is covered with its exact errno. -/
theorem claim3_errno_passthrough
    (ioctlS ioctlF ioctlM : Ioctl) (ioctlIntS ioctlIntF : IoctlInt)
    (skfd tapfd fd : Nat) (name : List Nat) (B : Nat) (set : Bool)
    (mtu0 : Int) (p0 a w : Nat) (ha0 nb0 : List Nat) (os : OS) (fdv es : Nat)
    (mS aS gS nS fS f2S hS gnS tS : Ifreq)
    (mT aT gT nT fT f2T hT gnT tT pT : OS)
    (hmS : ioctlS skfd Cmd.gifmtu (getmtu_req name) os = (Except.ok mS, mT))
    (haS : ioctlS skfd Cmd.sifaddr (setipaddr_req name a) os = (Except.ok aS, aT))
    (hgS : ioctlS skfd Cmd.gifaddr (getipaddr_req name) os = (Except.ok gS, gT))
    (hnS : ioctlS skfd Cmd.sifnetmask (setnetmask_req name w) os = (Except.ok nS, nT))
    (hfS : ioctlS skfd Cmd.gifflags (setflags_req name) os = (Except.ok fS, fT))
    (hf2S : ioctlS skfd Cmd.sifflags
        (if set then { fS with ifr_flags := fS.ifr_flags ||| B % 65536 }
         else { fS with ifr_flags := fS.ifr_flags &&& (0xffff ^^^ B % 65536) }) fT =
      (Except.ok f2S, f2T))
    (hhS : ioctlS tapfd Cmd.gifhwaddr Ifreq.zero os = (Except.ok hS, hT))
    (hgnS : ioctlS tapfd Cmd.tungetiff Ifreq.zero os = (Except.ok gnS, gnT))
    (htS : ioctlS fd Cmd.tunsetiff (set_tap_if_req name) os = (Except.ok tS, tT))
    (hpS : ioctlIntS fd Cmd.tunsetpersist 1 os = (Except.ok (), pT))
    (e1 e2 e3 e4 e5 e6 e7 e8 e9 ep : Nat)
    (u1 u2 u3 u4 u5 u7 u8 u9 up : OS) (fM : Ifreq) (uM uM2 : OS)
    (hmF : ioctlF skfd Cmd.gifmtu (getmtu_req name) os = (Except.error e1, u1))
    (haF : ioctlF skfd Cmd.sifaddr (setipaddr_req name a) os = (Except.error e2, u2))
    (hgF : ioctlF skfd Cmd.gifaddr (getipaddr_req name) os = (Except.error e3, u3))
    (hnF : ioctlF skfd Cmd.sifnetmask (setnetmask_req name w) os = (Except.error e4, u4))
    (hfF : ioctlF skfd Cmd.gifflags (setflags_req name) os = (Except.error e5, u5))
    (hfM1 : ioctlM skfd Cmd.gifflags (setflags_req name) os = (Except.ok fM, uM))
    (hfM2 : ioctlM skfd Cmd.sifflags
        (if set then { fM with ifr_flags := fM.ifr_flags ||| B % 65536 }
         else { fM with ifr_flags := fM.ifr_flags &&& (0xffff ^^^ B % 65536) }) uM =
      (Except.error e6, uM2))
    (hhF : ioctlF tapfd Cmd.gifhwaddr Ifreq.zero os = (Except.error e7, u7))
    (hgnF : ioctlF tapfd Cmd.tungetiff Ifreq.zero os = (Except.error e8, u8))
    (htF : ioctlF fd Cmd.tunsetiff (set_tap_if_req name) os = (Except.error e9, u9))
    (hpF : ioctlIntF fd Cmd.tunsetpersist 1 os = (Except.error ep, up)) :
    setpersist_tap ioctlIntS fd os = (0, pT) ∧
    getmtu_tap ioctlS skfd name mtu0 os = ((0, mS.ifr_mtu), mT) ∧
    setipaddr_tap ioctlS skfd name a os = (0, aT) ∧
    getipaddr_tap ioctlS skfd name p0 os = ((0, gS.ifr_addr.sin_addr), gT) ∧
    setnetmask_tap ioctlS skfd name w os = (0, nT) ∧
    setflags_tap ioctlS skfd name B set os = (0, f2T) ∧
    setup_tap ioctlS skfd name os =
      setflags_tap ioctlS skfd name (IFF_UP ||| IFF_RUNNING) true os ∧
    setup_tap ioctlF skfd name os =
      setflags_tap ioctlF skfd name (IFF_UP ||| IFF_RUNNING) true os ∧
    gethwaddr_tap ioctlS tapfd ha0 os = ((0, memcpy ha0 hS.ifr_hwaddr.sa_data ETH_ALEN), hT) ∧
    getname_tap ioctlS tapfd nb0 os = ((0, strncpy nb0 gnS.ifr_name IFNAMSIZ), gnT) ∧
    set_tap_if ioctlS fd name os = (0, tT) ∧
    set_tap false (Except.ok fdv) = (0, some (fdv : Int)) ∧
    setpersist_tap ioctlIntF fd os = (ep, up) ∧
    getmtu_tap ioctlF skfd name mtu0 os = ((e1, mtu0), u1) ∧
    setipaddr_tap ioctlF skfd name a os = (e2, u2) ∧
    getipaddr_tap ioctlF skfd name p0 os = ((e3, p0), u3) ∧
    setnetmask_tap ioctlF skfd name w os = (e4, u4) ∧
    setflags_tap ioctlF skfd name B set os = (e5, u5) ∧
    setflags_tap ioctlM skfd name B set os = (e6, uM2) ∧
    gethwaddr_tap ioctlF tapfd ha0 os = ((e7, ha0), u7) ∧
    getname_tap ioctlF tapfd nb0 os = ((e8, nb0), u8) ∧
    set_tap_if ioctlF fd name os = (e9, u9) ∧
    set_tap false (Except.error es) = ((es : Int), some (-1)) := by
  refine ⟨?_, ?_, ?_, ?_, ?_, ?_, rfl, rfl, ?_, ?_, ?_, rfl, ?_, ?_, ?_, ?_, ?_, ?_, ?_, ?_,
    ?_, ?_, rfl⟩
  · simp only [setpersist_tap, hpS]
  · simp only [getmtu_tap, hmS]
  · simp only [setipaddr_tap, haS]
  · simp only [getipaddr_tap, hgS]
  · simp only [setnetmask_tap, hnS]
  · simp only [setflags_tap, hfS, hf2S]
  · simp only [gethwaddr_tap, hhS]
  · simp only [getname_tap, hgnS]
  · simp only [set_tap_if, htS]
  · simp only [setpersist_tap, hpF]
  · simp only [getmtu_tap, hmF]
  · simp only [setipaddr_tap, haF]
  · simp only [getipaddr_tap, hgF]
  · simp only [setnetmask_tap, hnF]
  · simp only [setflags_tap, hfF]
  · simp only [setflags_tap, hfM1, hfM2]
  · simp only [gethwaddr_tap, hhF]
  · simp only [getname_tap, hgnF]
  · simp only [set_tap_if, htF]

set_option maxRecDepth 8192 in
/-- Witness for the amended C3: the succeeding behaviour is the OS model
`osIoctl`/`osIoctlInt` on `demoState` (interface present and attached, so
every call succeeds and every operation returns 0); the failing behaviour is
`failIoctl 7`/`failIoctlInt 7` (every operation returns exactly 7); the
mixed behaviour `failOn Cmd.sifflags 7 osIoctl` makes setflags_tap's second
ioctl fail (it returns exactly 7). -/
theorem claim3_witness :
    setpersist_tap osIoctlInt 5 demoState = (0, ⟨[(ifrName tap0, demoIface)],
      some (ifrName tap0), true⟩) ∧
    getmtu_tap osIoctl 3 tap0 0 demoState = ((0, 1500), demoState) ∧
    setipaddr_tap osIoctl 3 tap0 8 demoState =
      (0, OS.update demoState (ifrName tap0) ⟨4098, 1500, 8, 0, [1, 2, 3, 4, 5, 6]⟩) ∧
    getipaddr_tap osIoctl 3 tap0 0 demoState = ((0, 0), demoState) ∧
    setnetmask_tap osIoctl 3 tap0 9 demoState =
      (0, OS.update demoState (ifrName tap0) ⟨4098, 1500, 0, 9, [1, 2, 3, 4, 5, 6]⟩) ∧
    setflags_tap osIoctl 3 tap0 65 true demoState =
      (0, OS.update demoState (ifrName tap0) ⟨4163, 1500, 0, 0, [1, 2, 3, 4, 5, 6]⟩) ∧
    setup_tap osIoctl 3 tap0 demoState =
      setflags_tap osIoctl 3 tap0 (IFF_UP ||| IFF_RUNNING) true demoState ∧
    setup_tap (failIoctl 7) 3 tap0 demoState =
      setflags_tap (failIoctl 7) 3 tap0 (IFF_UP ||| IFF_RUNNING) true demoState ∧
    gethwaddr_tap osIoctl 4 [0, 0, 0, 0, 0, 0] demoState =
      ((0, [1, 2, 3, 4, 5, 6]), demoState) ∧
    getname_tap osIoctl 4 (List.replicate 16 0) demoState = ((0, ifrName tap0), demoState) ∧
    set_tap_if osIoctl 5 tap0 demoState = (0, demoState) ∧
    set_tap false (Except.ok 11) = (0, some (11 : Int)) ∧
    setpersist_tap (failIoctlInt 7) 5 demoState = (7, demoState) ∧
    getmtu_tap (failIoctl 7) 3 tap0 0 demoState = ((7, 0), demoState) ∧
    setipaddr_tap (failIoctl 7) 3 tap0 8 demoState = (7, demoState) ∧
    getipaddr_tap (failIoctl 7) 3 tap0 0 demoState = ((7, 0), demoState) ∧
    setnetmask_tap (failIoctl 7) 3 tap0 9 demoState = (7, demoState) ∧
    setflags_tap (failIoctl 7) 3 tap0 65 true demoState = (7, demoState) ∧
    setflags_tap (failOn Cmd.sifflags 7 osIoctl) 3 tap0 65 true demoState = (7, demoState) ∧
    gethwaddr_tap (failIoctl 7) 4 [0, 0, 0, 0, 0, 0] demoState =
      ((7, [0, 0, 0, 0, 0, 0]), demoState) ∧
    getname_tap (failIoctl 7) 4 (List.replicate 16 0) demoState =
      ((7, List.replicate 16 0), demoState) ∧
    set_tap_if (failIoctl 7) 5 tap0 demoState = (7, demoState) ∧
    set_tap false (Except.error 5) = ((5 : Int), some (-1)) :=
  claim3_errno_passthrough osIoctl (failIoctl 7) (failOn Cmd.sifflags 7 osIoctl)
    osIoctlInt (failIoctlInt 7) 3 4 5 tap0 65 true 0 0 8 9 [0, 0, 0, 0, 0, 0]
    (List.replicate 16 0) demoState 11 5
    { getmtu_req tap0 with ifr_mtu := 1500 }
    (setipaddr_req tap0 8)
    { getipaddr_req tap0 with ifr_addr := ⟨AF_INET, 0⟩ }
    (setnetmask_req tap0 9)
    { setflags_req tap0 with ifr_flags := 4098 }
    { setflags_req tap0 with ifr_flags := 4163 }
    { Ifreq.zero with ifr_hwaddr := ⟨1, [1, 2, 3, 4, 5, 6, 0, 0, 0, 0, 0, 0, 0, 0]⟩ }
    { Ifreq.zero with ifr_name := ifrName tap0 }
    (set_tap_if_req tap0)
    demoState
    (OS.update demoState (ifrName tap0) ⟨4098, 1500, 8, 0, [1, 2, 3, 4, 5, 6]⟩)
    demoState
    (OS.update demoState (ifrName tap0) ⟨4098, 1500, 0, 9, [1, 2, 3, 4, 5, 6]⟩)
    demoState
    (OS.update demoState (ifrName tap0) ⟨4163, 1500, 0, 0, [1, 2, 3, 4, 5, 6]⟩)
    demoState demoState demoState
    ⟨[(ifrName tap0, demoIface)], some (ifrName tap0), true⟩
    rfl rfl rfl rfl rfl rfl rfl rfl rfl rfl
    7 7 7 7 7 7 7 7 7 7
    demoState demoState demoState demoState demoState demoState demoState demoState demoState
    { setflags_req tap0 with ifr_flags := 4098 } demoState demoState
    rfl rfl rfl rfl rfl rfl rfl rfl rfl rfl rfl
end Tap
